import Mathlib

/-!
Shallow embedding of the tinyrpg core (src/tinyrpg/world.py, plot.py,
action.py) and verification of its specification claims.

Python objects are mutable and aliased: the same `Entity` object is
referenced both from a `Room`'s grid and by callers.  We therefore model
entities through an explicit heap: `ERef` is an object reference (index
into a `Heap`), and a `Room`'s grid stores `Option ERef` slots.  Mutating
an entity attribute updates the heap entry, which is visible through every
alias, exactly as in Python.

Python exceptions propagate while leaving already-performed in-place
mutations intact, so stateful operations return the (possibly partially)
mutated state together with an `Option PyErr` / `Except PyErr` result.
-/

/-- Python exception kinds raised by the embedded code. -/
inductive PyErr where
  | nameError (n : String)
  | attributeError (n : String)
  | keyError
  | indexError
  | typeError
  | stopIteration
  deriving DecidableEq, Repr

/-- Reference to an Entity object (index into the heap). -/
abbrev ERef := Nat

/-- `Entity` (world.py lines 21-116): the attribute record of an entity
object.  The pyglet sprite fields (pixel `x`/`y`, `group`, `batch`) are
rendering state; `Entity.update` raises `NameError` before assigning any
of them (see `Entity.update` below), so they never change and are omitted. -/
structure Entity where
  name : String
  walkable : Bool
  facing : Int × Int
  id : Option String
  tile_x : Int
  tile_y : Int
  tile_z : Int
  deriving DecidableEq, Repr

instance : Inhabited Entity := ⟨⟨"", false, (0, -1), none, 0, 0, 0⟩⟩

/-- The object heap: `ERef` indexes into this list. -/
abbrev Heap := List Entity

/-- Dereference an entity object. -/
def heapGet (h : Heap) (r : ERef) : Entity := h.getD r default

/-- Portal keys: `Room.portals` is one dict whose keys mix `(x, y)`
coordinate tuples and destination-room-name strings (world.py line 192
installs the reverse direction into the same dict). -/
inductive PKey where
  | coord (x y : Int)
  | room (n : String)
  deriving DecidableEq, Repr

/-- A Python dict as an association list with unique keys; `dictSet`
is `d[k] = v`: overwrite the key's entry in place if present, else
append a new entry. -/
def dictSet : List (PKey × PKey) → PKey → PKey → List (PKey × PKey)
  | [], k, v => [(k, v)]
  | kv :: d, k, v => if kv.1 = k then (k, v) :: d else kv :: dictSet d k v

/-- Dict lookup `d.get(k)`. -/
def dictGet : List (PKey × PKey) → PKey → Option PKey
  | [], _ => none
  | kv :: d, k => if kv.1 = k then some kv.2 else dictGet d k

/-- `Room` (world.py lines 119-282).  `grid` is the jagged
`self._entities` structure: `grid[y][x]` is a stack of optional entity
slots.  `uniques` is the id index, `portals` the (bidirectional) portal
dict, `batch` the current render-batch attachment (an opaque id). -/
structure Room where
  name : String
  grid : List (List (List (Option ERef)))
  portals : List (PKey × PKey)
  uniques : List (String × ERef)
  batch : Option Nat
  deriving DecidableEq, Repr

/-- The stack at `(x, y)` (empty list when out of bounds; every in-model
access is bounds-checked first, as in the source). -/
def Room.cellAt (r : Room) (x y : Nat) : List (Option ERef) :=
  (r.grid.getD y []).getD x []

/-- Write the stack at in-bounds `(x, y)`. -/
def Room.setCell (r : Room) (x y : Nat) (cell : List (Option ERef)) : Room :=
  { r with grid := r.grid.set y ((r.grid.getD y []).set x cell) }

/-- `e is None or e.walkable` (world.py line 183). -/
def slotWalkable (h : Heap) : Option ERef → Bool
  | none => true
  | some e => (heapGet h e).walkable

/-- `Room.is_walkable` (world.py lines 173-183): bounds check on the
jagged grid (`self._entities[y]` is read twice, as in the source), then
`all(e is None or e.walkable for e in self._entities[y][x])`. -/
def Room.is_walkable (h : Heap) (r : Room) (x y : Int) : Bool :=
  decide (0 ≤ y) && decide (y < (r.grid.length : Int)) &&
    (decide (0 ≤ x) && decide (x < ((r.grid.getD y.toNat []).length : Int)) &&
      ((r.grid.getD y.toNat []).getD x.toNat []).all (slotWalkable h))

/-- `Room.add_portals` (world.py lines 185-192):
`self.portals.update(portals)` then
`self.portals.update((v, k) for k, v in portals.items())`.
The argument dict is modelled as an association list in iteration order. -/
def Room.add_portals (r : Room) (ps : List (PKey × PKey)) : Room :=
  let d1 := ps.foldl (fun acc kv => dictSet acc kv.1 kv.2) r.portals
  let d2 := ps.foldl (fun acc kv => dictSet acc kv.2 kv.1) d1
  { r with portals := d2 }

/-- `Entity.update` (world.py lines 86-116): assigns
`self._tile_x = x; self._tile_y = y; self._tile_z = z` (lines 109-111) and
then evaluates `self._tile_x * tile_width + origin_x` (line 113), where
`origin_x` is an unbound name (the parameter is `offset_x` and the module
globals are `ORIGIN_X`/`ORIGIN_Y`), so every call raises `NameError` after
updating the tile coordinates and before touching any sprite field. -/
def Entity.update (h : Heap) (er : ERef) (x y z : Int) : Heap × Option PyErr :=
  let e := heapGet h er
  (h.set er { e with tile_x := x, tile_y := y, tile_z := z },
   some (.nameError "origin_x"))

/-- `Room._place_entity` (world.py lines 194-196):
`self._entities[y][x][z] = entity`.  A plain grid-slot assignment; it does
not touch the entity object itself. -/
def Room._place_entity (r : Room) (er : ERef) (x y z : Nat) : Room :=
  r.setCell x y ((r.cellAt x y).set z (some er))

/-- `Room._update_entity` (world.py lines 149-166): forwards to
`entity.update(x, y, z, ...)`; the extra origin/tile/batch arguments are
never consumed before `Entity.update` raises. -/
def Room._update_entity (h : Heap) (r : Room) (er : ERef) (x y z : Nat) :
    Heap × Option PyErr :=
  Entity.update h er x y z

/-- First entity of `Room._iter_entities` (world.py lines 142-147):
the first occupied slot in row-major `y`, `x`, `z` order, with its
coordinates. -/
def Room.firstEntity (r : Room) : Option (ERef × Nat × Nat × Nat) :=
  r.grid.enum.findSome? fun yrow =>
    yrow.2.enum.findSome? fun xcell =>
      xcell.2.enum.findSome? fun zslot =>
        zslot.2.map fun e => (e, xcell.1, yrow.1, zslot.1)

/-- `Room.update` (world.py lines 168-171): calls `_update_entity` for
every entity in iteration order.  The first call raises `NameError`
(see `Entity.update`), after syncing that first entity's tile coordinates
to its grid position; later entities are never reached.  A room with no
entities refreshes without fault. -/
def Room.update (h : Heap) (r : Room) : Heap × Option PyErr :=
  match r.firstEntity with
  | none => (h, none)
  | some (er, x, y, z) => Room._update_entity h r er x y z

/-- `Room.add_entity` (world.py lines 198-221) for an addressable cell
`(x, y)` and a non-negative placement hint (Python's negative-index
wrapping is outside the model's domain; no in-repo caller passes a
negative `z`).  On an empty stack (`depth = 0`, excluded by the spec's
depth ≥ 1 invariant) the Python code raises `IndexError` reading
`cell[-1]`.  The re-placement loop over `self._entities[y][x][z + 1:]`
(lines 216-218) is embedded literally: it re-assigns each shifted slot
its current occupant via `_place_entity` and updates nothing else. -/
def Room.add_entity (h : Heap) (r : Room) (er : ERef) (x y : Nat)
    (zHint : Option Nat) : (Heap × Room) × Option PyErr :=
  let cell := r.cellAt x y
  let depth := cell.length
  if depth = 0 then ((h, r), some .indexError)
  else
    let z := match zHint with
      | none => depth - 1
      | some z => min (depth - 1) z
    if (cell.getD z none).isSome then
      let z1 := z + 1
      if z1 = depth then
        let r1 := r.setCell x y (cell ++ [none])
        let r2 := r1._place_entity er x y z1
        let (h', err) := Room._update_entity h r2 er x y z1
        ((h', r2), err)
      else
        let cell1 := cell.insertIdx z1 none
        let r1 := r.setCell x y cell1
        let r2 := (cell1.drop (z1 + 1)).enum.foldl
          (fun acc p =>
            match p.2 with
            | some ent => acc._place_entity ent x y (z1 + 1 + p.1)
            | none => acc) r1
        let r3 := r2._place_entity er x y z1
        let (h', err) := Room._update_entity h r3 er x y z1
        ((h', r3), err)
    else
      let r1 := r._place_entity er x y z
      let (h', err) := Room._update_entity h r1 er x y z
      ((h', r1), err)

/-- `Room.pop_entity` (world.py lines 223-227): read the slot, clear it,
return the former occupant. -/
def Room.pop_entity (r : Room) (x y z : Nat) : Room × Option ERef :=
  let entity := (r.cellAt x y).getD z none
  (r.setCell x y ((r.cellAt x y).set z none), entity)

/-- `xstep / abs(xstep) if xstep else 0` (world.py lines 251-252):
integer sign extraction. -/
def pysign (k : Int) : Int := if k = 0 then 0 else if 0 < k then 1 else -1

/-- `Room.step_entity` (world.py lines 229-263), entity given as an
object reference (the string-id branch of line 248 resolves through
`uniques` and is not needed by any claim).  The method first assigns
`entity.facing` (lines 251-252), then checks walkability of the
destination; on failure it returns `False`.  On success it evaluates
`self.pop_entity(x, y, z)` (line 261) where `x` and `y` are unbound local
names, so the success path always raises `NameError` with the grid and
coordinates untouched (only `facing` changed). -/
def Room.step_entity (h : Heap) (r : Room) (er : ERef) (xstep ystep : Int) :
    (Heap × Room) × Except PyErr Bool :=
  let e := heapGet h er
  let h' := h.set er { e with facing := (pysign xstep, pysign ystep) }
  let newx := e.tile_x + xstep
  let newy := e.tile_y + ystep
  if r.is_walkable h' newx newy then
    ((h', r), .error (.nameError "x"))
  else
    ((h', r), .ok false)

/-- `Room.portal_entity` (world.py lines 265-282).  Its first statement
`from_room = self.focus.name` (line 279) reads attribute `focus`, which
`Room` never defines (see `roomAttrs`), so every call raises
`AttributeError` before mutating anything.  Even read charitably past that
line, the body only pops the entity and binds `x, y` to the paired
coordinate; it never places the entity anywhere and falls through
returning `None`. -/
def Room.portal_entity (h : Heap) (r : Room) (er : ERef) (x y : Int) :
    (Heap × Room) × Except PyErr Unit :=
  ((h, r), .error (.attributeError "focus"))

/-- Attributes bound on `Room` instances by world.py (class methods and
the instance attributes assigned in `__init__`, lines 119-227).  `focus`
is not among them. -/
def roomAttrs : List String :=
  ["name", "_entities", "portals", "batch", "uniques", "origin_x",
   "origin_y", "tile_width", "tile_height", "_iter_entities",
   "_update_entity", "update", "is_walkable", "add_portals",
   "_place_entity", "add_entity", "pop_entity", "step_entity",
   "portal_entity"]

/-- `World` state (world.py lines 285-388).  `rooms` is the `_rooms`
registry keyed by room name; `focus` records which registry room
`self._focus` aliases (`none` before the first `set_focus`); `batch` is
the opaque render batch provided by the `GameMode` base.
Modelled from the spec: `tinyrpg/base.py` (class `GameMode`) is not under
src/; per spec section 6 it supplies only the window/render-batch plumbing
(`batch`) and an `activate` hook, and defines no grid or movement
operations. -/
structure WorldSt where
  heap : Heap
  rooms : List (String × Room)
  focus : Option String
  player : ERef
  batch : Nat
  deriving DecidableEq, Repr

/-- Keyed lookup in the room registry. -/
def lookupRoom : List (String × Room) → String → Option Room
  | [], _ => none
  | kv :: rs, k => if kv.1 = k then some kv.2 else lookupRoom rs k

/-- Replace the registry entry for an existing key in place (modelling a
mutation of the aliased `Room` object); a missing key is left alone. -/
def storeRoom : List (String × Room) → String → Room → List (String × Room)
  | [], _, _ => []
  | kv :: rs, k, r => if kv.1 = k then (k, r) :: rs else kv :: storeRoom rs k r

/-- `self._rooms` lookup (world.py lines 321-322 `__getitem__`);
a missing key raises `KeyError`. -/
def WorldSt.getRoom (w : WorldSt) (k : String) : Option Room :=
  lookupRoom w.rooms k

/-- Mutate the registry room aliased by key `k`. -/
def WorldSt.setRoom (w : WorldSt) (k : String) (r : Room) : WorldSt :=
  { w with rooms := storeRoom w.rooms k r }

/-- Attributes bound on `World` instances by world.py (lines 285-388)
together with the spec-modelled `GameMode` base attributes.  Neither
`step_entity`, `portal_entity` nor `portals` is among them. -/
def worldAttrs : List String :=
  ["window", "batch", "activate",
   "_rooms", "player", "plot", "infobox", "key_switch", "_focus",
   "focus", "set_focus", "step_player", "portal_player", "interact",
   "on_key_press"]

/-- `World.set_focus` (world.py lines 324-339).
Step 1 (lines 332-334): if a room is focused, detach its batch and
refresh it (`Room.update` faults on the first entity, if any).
Step 2 (line 336): `room = self[room] if room else self.focus`; an absent
non-empty id raises `KeyError` from `__getitem__` (line 322), and an
empty id with no current focus dereferences `None` (line 337).
Step 3 (lines 337-339): attach the target's batch, refresh it, and only
then assign `self._focus`.  States whose `focus` names a key missing from
the registry cannot arise in Python (the focus aliases a registry room)
and step 1 skips them. -/
def World.set_focus (w : WorldSt) (roomId : String) : WorldSt × Option PyErr :=
  let step1 : WorldSt × Option PyErr :=
    match w.focus with
    | none => (w, none)
    | some f =>
      match w.getRoom f with
      | none => (w, none)
      | some fr =>
        let fr1 := { fr with batch := none }
        let w1 := w.setRoom f fr1
        let (h', err) := Room.update w1.heap fr1
        ({ w1 with heap := h' }, err)
  match step1 with
  | (w1, some e) => (w1, some e)
  | (w1, none) =>
    let target : Except PyErr String :=
      if roomId ≠ "" then
        match w1.getRoom roomId with
        | some _ => .ok roomId
        | none => .error .keyError
      else
        match w1.focus with
        | some f => .ok f
        | none => .error (.attributeError "batch")
    match target with
    | .error e => (w1, some e)
    | .ok t =>
      match w1.getRoom t with
      | none => (w1, some .keyError)
      | some tr =>
        let tr1 := { tr with batch := some w1.batch }
        let w2 := w1.setRoom t tr1
        let (h', err) := Room.update w2.heap tr1
        match err with
        | some e => ({ w2 with heap := h' }, some e)
        | none => ({ w2 with heap := h', focus := some t }, none)

/-- `World.step_player` (world.py lines 341-361).  Its first statement
evaluates `self.step_entity(self.player, xstep, ystep)` (line 355), but
neither `World` nor the spec-modelled `GameMode` base defines a
`step_entity` attribute (see `worldAttrs`; the only `step_entity` in the
program is `Room.step_entity`), so every call raises `AttributeError`
before any state change. -/
def World.step_player (w : WorldSt) (xstep ystep : Int) :
    WorldSt × Option PyErr :=
  (w, some (.attributeError "step_entity"))

/-- `World.portal_player` (world.py lines 363-371).  Its first statement
evaluates `self.portal_entity(self.player, x, y)` (line 367), an
attribute `World` does not define (see `worldAttrs`; `portal_entity` is a
`Room` method), so every call raises `AttributeError`.  Were the lookup
read charitably as `Room.portal_entity`, that call itself raises
`AttributeError` (see `Room.portal_entity`); and had it returned its
source's `None`, the `if not ...: return` guard (lines 367-368) would end
the call before `set_focus` is ever reached. -/
def World.portal_player (w : WorldSt) (x y : Int) : WorldSt × Option PyErr :=
  (w, some (.attributeError "portal_entity"))

/-- Plot flags: Python set-of-strings state, modelled as a duplicate-free
insertion-ordered list observed through membership. -/
abbrev Flags := List String

/-- A trigger value (plot.py lines 17-22): either a bare callable or a
`(callable, nested-triggers)` pair, discriminated at runtime by
`type(value) in (tuple, list)`.  Callables are opaque ids. -/
inductive Trig where
  | bare (cb : Nat)
  | pair (cb : Nat) (next : List (Flags × Trig))

/-- The live trigger dict: required-flag-set keys to trigger values. -/
abbrev Forest := List (Flags × Trig)

/-- `state.update(updates)` (plot.py line 12): set union, inserting
genuinely new flags in order. -/
def flagsUpdate (s : Flags) (updates : List String) : Flags :=
  updates.foldl (fun acc u => if acc.contains u then acc else acc ++ [u]) s

/-- `req_state <= state` (plot.py line 24): frozenset subset test. -/
def flagsSubset (req s : Flags) : Bool :=
  req.all fun f => s.contains f

/-- `del triggers[req_state]` (plot.py line 26). -/
def forestDel (d : Forest) (k : Flags) : Forest :=
  d.filter fun kv => !(kv.1 == k)

/-- One `d[k] = v` store into the trigger dict: overwrite in place or
append. -/
def forestSet (d : Forest) (k : Flags) (v : Trig) : Forest :=
  if d.any (fun kv => kv.1 == k) then
    d.map (fun kv => if kv.1 == k then (k, v) else kv)
  else d ++ [(k, v)]

/-- `triggers.update(nextbranch)` (plot.py line 27) for a dict argument. -/
def forestUpdate (d new : Forest) : Forest :=
  new.foldl (fun acc kv => forestSet acc kv.1 kv.2) d

/-- One pass of the trigger loop (plot.py lines 17-27), iterating over the
snapshot `triggers.items()` (a Python 2 list copy) while mutating the live
dict.  Returns the live dict, the callbacks fired in order, and the
exception, if any, that aborted the pass: for a fired *bare* callable,
`nextbranch` is `None` (line 22) and `triggers.update(None)` (line 27)
raises `TypeError` — after the callback ran and the entry was deleted. -/
def runPass (state : Flags) (snapshot live : Forest) :
    Forest × List Nat × Option PyErr :=
  snapshot.foldl
    (fun acc kv =>
      match acc.2.2 with
      | some _ => acc
      | none =>
        if flagsSubset kv.1 state then
          match kv.2 with
          | .pair cb nb =>
            (forestUpdate (forestDel acc.1 kv.1) nb, acc.2.1 ++ [cb], none)
          | .bare cb =>
            (forestDel acc.1 kv.1, acc.2.1 ++ [cb], some .typeError)
        else acc)
    (live, [], none)

/-- Observable state of a `plot(world, state, triggers)` generator
(plot.py lines 3-27): the shared flag set, the live trigger dict, whether
the generator is still suspended at a `yield` (`alive`), and the
cumulative log of callback invocations. -/
structure GenSt where
  flags : Flags
  forest : Forest
  alive : Bool
  fired : List Nat

/-- Creating the generator and advancing it with `next()` to its first
`yield` (as `Plot.start` line 73 would).  With an empty trigger dict the
`while triggers` loop (line 4) is never entered, the generator returns at
once and `next()` raises `StopIteration`. -/
def plotStart (triggers : Forest) (state : Flags) : GenSt × Option PyErr :=
  if triggers.isEmpty then
    ({ flags := state, forest := triggers, alive := false, fired := [] },
     some .stopIteration)
  else
    ({ flags := state, forest := triggers, alive := true, fired := [] }, none)

/-- `gen.send(updates)` with a collection of new flags (the only form
`Plot.update` produces — its `*updates` tuple; `None` sends are skipped by
line 8 and change nothing).  A send to a finished generator raises
`StopIteration`.  Otherwise the generator merges the flags (line 12), runs
one pass over the snapshot of the live dict (lines 17-27), and then
re-tests `while triggers` (line 4): if the live dict has emptied, the
generator returns and this very `send` raises `StopIteration`, with all
of the pass's effects retained. -/
def plotSend (g : GenSt) (updates : List String) : GenSt × Option PyErr :=
  if g.alive then
    let flags1 := flagsUpdate g.flags updates
    let (live1, newFired, err) := runPass flags1 g.forest g.forest
    match err with
    | some e =>
      ({ flags := flags1, forest := live1, alive := false,
         fired := g.fired ++ newFired }, some e)
    | none =>
      if live1.isEmpty then
        ({ flags := flags1, forest := live1, alive := false,
           fired := g.fired ++ newFired }, some .stopIteration)
      else
        ({ flags := flags1, forest := live1, alive := true,
           fired := g.fired ++ newFired }, none)
  else (g, some .stopIteration)

/-- `Plot.start` (plot.py lines 71-73): its body evaluates
`plot(world, state, triggers)`, but `state` and `triggers` are unbound
names (the instance fields are `self.state` and `self.triggers`), so
every call raises `NameError` and `self._plot` is never assigned.
(`Plot.__init__` is equally broken for non-empty triggers:
`_format_triggers` line 68 recurses through an unbound global
`_format_triggers`.) -/
def PlotClass.start : Option PyErr := some (.nameError "state")

/-- `ActionCycle` (action.py lines 55-79).  `__init__` sets
`self._actions = chain(*repeat(actions, n))` — the action tuple repeated
`n` times — and `self._final_action = actions[-1]` (an empty tuple would
raise `IndexError`; the claims assume at least one action).  `__call__`
pops the next chained action; once the chain raises `StopIteration` it
swaps in `repeat(self._final_action)`, so every later call yields the
final action.  Actions are opaque ids. -/
structure ActionCycle where
  pending : List Nat
  finalAction : Nat

def ActionCycle.init (n : Nat) (actions : List Nat) : ActionCycle :=
  { pending := (List.replicate n actions).flatten,
    finalAction := actions.getLastD 0 }

/-- `ActionCycle.__call__` (action.py lines 72-79): the invoked action id
and the successor state. -/
def ActionCycle.call (a : ActionCycle) : Nat × ActionCycle :=
  match a.pending with
  | c :: rest => (c, { a with pending := rest })
  | [] => (a.finalAction, a)

/-- The action invoked by the `k`-th call (0-indexed) on state `a`. -/
def ActionCycle.invokedAt (a : ActionCycle) : Nat → Nat
  | 0 => a.call.1
  | k + 1 => a.call.2.invokedAt k

/-! Concrete fixtures used by counterexamples and witnesses. -/

/-- One unwalkable player entity, facing down, standing at (0, 0). -/
def heapC1 : Heap := [⟨"player", false, (0, -1), some "player", 0, 0, 0⟩]

/-- A one-cell room hosting the player; (1, 0) is out of bounds. -/
def roomC1 : Room := ⟨"cell", [[[some 0]]], [], [("player", 0)], some 1⟩

/-- A walkable floor (ref 0, z = 0), a rock above it (ref 1, z = 1) and a
newcomer entity (ref 2) about to be added at z = 0. -/
def heapC3 : Heap :=
  [⟨"floor", true, (0, -1), none, 0, 0, 0⟩,
   ⟨"rock", false, (0, -1), none, 0, 0, 1⟩,
   ⟨"newcomer", false, (0, -1), none, 5, 5, 0⟩]

/-- A one-cell room whose stack holds the floor below the rock. -/
def roomC3 : Room := ⟨"stack", [[[some 0, some 1]]], [], [], none⟩

/-- A single bare-callable trigger requiring flag "a" (the form
documented by `Plot.__init__`'s docstring). -/
def forestC4 : Forest := [(["a"], Trig.bare 0)]

/-- The generator for `forestC4`, advanced to its first yield. -/
def genC4 : GenSt := (plotStart forestC4 []).1

/-- A single normalized trigger `{"a"} -> (cb 0, {})`. -/
def forestC5 : Forest := [(["a"], Trig.pair 0 [])]

/-- The generator for `forestC5`, advanced to its first yield. -/
def genC5a : GenSt := (plotStart forestC5 []).1

/-- `genC5a` after `send({"a"})`: the only trigger has fired and the
forest is empty. -/
def genC5b : GenSt := (plotSend genC5a ["a"]).1

/-- A walkable grass tile. -/
def heapC7w : Heap := [⟨"grass", true, (0, -1), none, 0, 0, 0⟩]

/-- A one-cell room whose stack holds the grass and one empty slot. -/
def roomC7w : Room := ⟨"meadow", [[[some 0, none]]], [], [], none⟩

/-- A room with no portals installed yet. -/
def roomC8 : Room := ⟨"hub", [], [], [], none⟩

/-- Two portal pairs sharing one destination coordinate: dict values
collide in the reverse-indexing pass. -/
def portalsC8 : List (PKey × PKey) :=
  [(PKey.room "A", PKey.coord 0 0), (PKey.room "B", PKey.coord 0 0)]

/-- An entity-free one-cell room named "A", attached to batch 7. -/
def roomC9 : Room := ⟨"A", [[[none]]], [], [], some 7⟩

/-- A world focused on room "A"; no room "B" is registered. -/
def worldC9 : WorldSt := ⟨[], [("A", roomC9)], some "A", 0, 7⟩

/-- A one-cell room whose stack holds an entity at z = 0 and an empty
slot at z = 1. -/
def roomC10 : Room := ⟨"poproom", [[[some 0, none]]], [], [], none⟩

/-! Helper lemmas. -/

theorem lset_same {α : Type} : ∀ (l : List α) (i : Nat) (a : α),
    l[i]? = some a → l.set i a = l
  | [], _, _, h => by simp at h
  | _ :: _, 0, a, h => by simp_all
  | x :: xs, i + 1, a, h => by
    simp only [List.getElem?_cons_succ] at h
    simp [List.set_cons_succ, lset_same xs i a h]

theorem lgetD_set_self {α : Type} (l : List α) (i : Nat) (v d : α)
    (h : i < l.length) : (l.set i v).getD i d = v := by
  rw [List.getD_eq_getElem?_getD, List.getElem?_set_self h]
  rfl

theorem lgetD_set_ne {α : Type} (l : List α) (i j : Nat) (v d : α)
    (h : i ≠ j) : (l.set i v).getD j d = l.getD j d := by
  rw [List.getD_eq_getElem?_getD, List.getElem?_set_ne h,
    ← List.getD_eq_getElem?_getD]

theorem slotWalkable_eq_true (h : Heap) (slot : Option ERef) :
    slotWalkable h slot = true ↔
      ∀ e, slot = some e → (heapGet h e).walkable = true := by
  cases slot <;> simp [slotWalkable]

/-- Claim C7: `is_walkable(x, y)` is false whenever `(x, y)` is outside
the jagged grid's bounds, and for in-bounds coordinates it is true iff
every non-empty slot of the cell's stack holds a walkable entity. -/
theorem C7_is_walkable_characterisation (h : Heap) (r : Room) (x y : Int) :
    r.is_walkable h x y = true ↔
      (0 ≤ y ∧ y < (r.grid.length : Int) ∧ 0 ≤ x ∧
       x < ((r.grid.getD y.toNat []).length : Int) ∧
       ∀ slot ∈ (r.grid.getD y.toNat []).getD x.toNat [],
         ∀ e, slot = some e → (heapGet h e).walkable = true) := by
  simp only [Room.is_walkable, Bool.and_eq_true, decide_eq_true_eq,
    List.all_eq_true, slotWalkable_eq_true, and_assoc]

theorem C7_witness : Room.is_walkable heapC7w roomC7w 0 0 = true := by
  refine (C7_is_walkable_characterisation heapC7w roomC7w 0 0).mpr
    ⟨by decide, by decide, by decide, by decide, ?_⟩
  intro slot hs e he
  have : slot = some 0 ∨ slot = none := by
    simpa [roomC7w] using hs
  rcases this with h0 | h0 <;> subst h0
  · cases he; decide
  · cases he

theorem cellAt_setCell (r : Room) (x y : Nat) (c : List (Option ERef))
    (hy : y < r.grid.length) (hx : x < (r.grid.getD y []).length) :
    (r.setCell x y c).cellAt x y = c := by
  simp only [Room.setCell, Room.cellAt]
  rw [lgetD_set_self _ _ _ _ hy, lgetD_set_self _ _ _ _ hx]

theorem setCell_setCell (r : Room) (x y : Nat) (c c' : List (Option ERef))
    (hy : y < r.grid.length) :
    (r.setCell x y c).setCell x y c' = r.setCell x y c' := by
  simp only [Room.setCell]
  rw [lgetD_set_self _ _ _ _ hy, List.set_set, List.set_set]

/-- Claim C10: on an addressable slot, `pop_entity` of an empty slot
returns no entity and leaves the grid unchanged, popping twice ends in
the same state as popping once, and popping never changes the stack's
depth. -/
theorem C10_pop_entity_properties (r : Room) (x y z : Nat)
    (hy : y < r.grid.length) (hx : x < (r.grid.getD y []).length)
    (hz : z < (r.cellAt x y).length) :
    ((r.cellAt x y).getD z none = none → r.pop_entity x y z = (r, none)) ∧
    (r.pop_entity x y z).1.pop_entity x y z = ((r.pop_entity x y z).1, none) ∧
    (((r.pop_entity x y z).1.cellAt x y).length = (r.cellAt x y).length) := by
  have hcell : ((r.cellAt x y).set z none).getD z none = none := by
    rw [List.getD_eq_getElem?_getD, List.getElem?_set_self hz]
    rfl
  have hca : (r.setCell x y ((r.cellAt x y).set z none)).cellAt x y
      = (r.cellAt x y).set z none := cellAt_setCell r x y _ hy hx
  refine ⟨?_, ?_, ?_⟩
  · intro hempty
    have hsome : (r.cellAt x y)[z]? = some none := by
      rw [List.getElem?_eq_getElem hz]
      rw [List.getD_eq_getElem _ _ hz] at hempty
      rw [hempty]
    have hset : (r.cellAt x y).set z none = r.cellAt x y := lset_same _ _ _ hsome
    have hid : r.setCell x y (r.cellAt x y) = r := by
      simp only [Room.setCell, Room.cellAt]
      have h1 : (r.grid.getD y []).set x ((r.grid.getD y []).getD x [])
          = r.grid.getD y [] := by
        refine lset_same _ _ _ ?_
        rw [List.getElem?_eq_getElem hx, List.getD_eq_getElem _ _ hx]
      rw [h1]
      have h2 : r.grid.set y (r.grid.getD y []) = r.grid := by
        refine lset_same _ _ _ ?_
        rw [List.getElem?_eq_getElem hy, List.getD_eq_getElem _ _ hy]
      rw [h2]
    simp only [Room.pop_entity, hempty, hset, hid]
  · simp only [Room.pop_entity]
    rw [hca, List.set_set, setCell_setCell r x y _ _ hy, hcell]
  · simp only [Room.pop_entity]
    rw [hca, List.length_set]

theorem C10_witness :
    1 < (roomC10.cellAt 0 0).length ∧
    roomC10.pop_entity 0 0 1 = (roomC10, none) := by
  refine ⟨by decide, ?_⟩
  exact (C10_pop_entity_properties roomC10 0 0 1 (by decide) (by decide)
    (by decide)).1 (by decide)

theorem walkable_set_facing (h : Heap) (er : ERef) (f : Int × Int) (e : ERef) :
    (heapGet (h.set er { heapGet h er with facing := f }) e).walkable
      = (heapGet h e).walkable := by
  simp only [heapGet, List.getD_eq_getElem?_getD, List.getElem?_set]
  by_cases hee : er = e
  · subst hee
    by_cases hl : er < h.length
    · simp [hl, List.getElem?_eq_getElem hl, List.getD_eq_getElem _ _ hl]
    · simp [hl, List.getElem?_eq_none (Nat.le_of_not_lt hl)]
  · simp [hee]

theorem is_walkable_set_facing (h : Heap) (r : Room) (er : ERef)
    (f : Int × Int) (x y : Int) :
    r.is_walkable (h.set er { heapGet h er with facing := f }) x y
      = r.is_walkable h x y := by
  have hsw : slotWalkable (h.set er { heapGet h er with facing := f })
      = slotWalkable h := by
    funext slot
    cases slot with
    | none => rfl
    | some e => simpa [slotWalkable] using walkable_set_facing h er f e
  simp only [Room.is_walkable, hsw]

/-- Claim C1 counterexample: stepping the player into an unwalkable cell
reports failure, yet the entity's `facing` attribute has changed from
(0, -1) to (1, 0) — the call does not leave every entity attribute
unchanged. -/
theorem C1_counterexample :
    roomC1.is_walkable heapC1 1 0 = false ∧
    (Room.step_entity heapC1 roomC1 0 1 0).2 = Except.ok false ∧
    (heapGet (Room.step_entity heapC1 roomC1 0 1 0).1.1 0).facing = (1, 0) ∧
    (heapGet heapC1 0).facing = (0, -1) :=
  ⟨rfl, rfl, rfl, rfl⟩

/-- Claim C1 as amended: if the destination cell is not walkable,
`step_entity` reports failure and leaves the grid and every entity's
coordinates and other attributes unchanged, except that the stepped
entity's `facing` is set to `(sign dx, sign dy)` before the walkability
check. -/
theorem C1_step_entity_failure (h : Heap) (r : Room) (er : ERef) (dx dy : Int)
    (hw : r.is_walkable h ((heapGet h er).tile_x + dx)
      ((heapGet h er).tile_y + dy) = false) :
    Room.step_entity h r er dx dy
      = ((h.set er { heapGet h er with facing := (pysign dx, pysign dy) }, r),
         Except.ok false) ∧
    ∀ j, heapGet (Room.step_entity h r er dx dy).1.1 j
        = { heapGet h j with
            facing := (heapGet (Room.step_entity h r er dx dy).1.1 j).facing } := by
  have hcond : r.is_walkable
      (h.set er { heapGet h er with facing := (pysign dx, pysign dy) })
      ((heapGet h er).tile_x + dx) ((heapGet h er).tile_y + dy) = false := by
    rw [is_walkable_set_facing]
    exact hw
  refine ⟨?_, ?_⟩
  · simp only [Room.step_entity, hcond]
    simp
  · intro j
    simp only [Room.step_entity, hcond, Bool.false_eq_true, if_false]
    simp only [heapGet, List.getD_eq_getElem?_getD, List.getElem?_set]
    by_cases hje : er = j
    · subst hje
      by_cases hl : er < h.length
      · simp [hl, List.getElem?_eq_getElem hl, List.getD_eq_getElem _ _ hl]
      · simp [hl, List.getElem?_eq_none (Nat.le_of_not_lt hl)]
    · simp [hje]

theorem C1_witness :
    roomC1.is_walkable heapC1 1 0 = false ∧
    (Room.step_entity heapC1 roomC1 0 1 0).2 = Except.ok false := by
  refine ⟨by decide, ?_⟩
  have hmain := C1_step_entity_failure heapC1 roomC1 0 1 0 (by decide)
  rw [hmain.1]

theorem invokedAt_eq (k : Nat) : ∀ (a : ActionCycle),
    a.invokedAt k = a.pending.getD k a.finalAction := by
  induction k with
  | zero =>
    intro a
    cases hp : a.pending with
    | nil => simp [ActionCycle.invokedAt, ActionCycle.call, hp]
    | cons c rest => simp [ActionCycle.invokedAt, ActionCycle.call, hp]
  | succ k ih =>
    intro a
    cases hp : a.pending with
    | nil =>
      simp only [ActionCycle.invokedAt, ActionCycle.call, hp]
      rw [ih]
      simp [hp]
    | cons c rest =>
      simp only [ActionCycle.invokedAt, ActionCycle.call, hp]
      rw [ih]
      simp

theorem flatten_replicate_getD (acts : List Nat) (d : Nat) :
    ∀ (n k : Nat), ((List.replicate n acts).flatten).getD k d
      = if k < n * acts.length then acts.getD (k % acts.length) d else d := by
  intro n
  induction n with
  | zero => simp
  | succ n ih =>
    intro k
    have hmul : (n + 1) * acts.length = n * acts.length + acts.length := by ring
    rw [List.replicate_succ, List.flatten_cons]
    by_cases hk : k < acts.length
    · rw [List.getD_eq_getElem?_getD, List.getElem?_append, if_pos hk,
        ← List.getD_eq_getElem?_getD, Nat.mod_eq_of_lt hk, if_pos (by omega)]
    · have hge : acts.length ≤ k := Nat.le_of_not_lt hk
      rw [List.getD_eq_getElem?_getD, List.getElem?_append, if_neg hk,
        ← List.getD_eq_getElem?_getD, ih (k - acts.length)]
      have hmod : (k - acts.length) % acts.length = k % acts.length :=
        (Nat.mod_eq_sub_mod hge).symm
      rw [hmod]
      by_cases h2 : k - acts.length < n * acts.length
      · rw [if_pos h2, if_pos (by omega)]
      · rw [if_neg h2, if_neg (by omega)]

/-- Claim C6: `ActionCycle(n, ...)` advances through the sub-action
sequence `n * len` times (call `k` invokes `sequence[k mod len]`) and
then sticks permanently on the final sub-action; in particular
`ActionCycle(2, A, B)` invokes A, B, A, B, B over five calls. -/
theorem C6_action_cycle (n : Nat) (acts : List Nat) (hne : acts ≠ []) :
    (∀ k, k < n * acts.length →
      (ActionCycle.init n acts).invokedAt k = acts.getD (k % acts.length) 0) ∧
    (∀ k, n * acts.length ≤ k →
      (ActionCycle.init n acts).invokedAt k = acts.getLastD 0) ∧
    ((ActionCycle.init 2 [10, 20]).invokedAt 0 = 10 ∧
     (ActionCycle.init 2 [10, 20]).invokedAt 1 = 20 ∧
     (ActionCycle.init 2 [10, 20]).invokedAt 2 = 10 ∧
     (ActionCycle.init 2 [10, 20]).invokedAt 3 = 20 ∧
     (ActionCycle.init 2 [10, 20]).invokedAt 4 = 20) := by
  have hpos : 0 < acts.length := List.length_pos.mpr hne
  refine ⟨?_, ?_, by decide⟩
  · intro k hk
    rw [invokedAt_eq]
    simp only [ActionCycle.init]
    rw [flatten_replicate_getD, if_pos hk]
    have hmod : k % acts.length < acts.length := Nat.mod_lt _ hpos
    rw [List.getD_eq_getElem _ _ hmod, List.getD_eq_getElem _ _ hmod]
  · intro k hk
    rw [invokedAt_eq]
    simp only [ActionCycle.init]
    rw [flatten_replicate_getD, if_neg (by omega)]

theorem C6_witness :
    ([10, 20] : List Nat) ≠ [] ∧
    (ActionCycle.init 2 [10, 20]).invokedAt 3 = [10, 20].getD (3 % 2) 0 ∧
    (ActionCycle.init 2 [10, 20]).invokedAt 7 = [10, 20].getLastD 0 :=
  ⟨by decide,
   (C6_action_cycle 2 [10, 20] (by decide)).1 3 (by decide),
   (C6_action_cycle 2 [10, 20] (by decide)).2.1 7 (by decide)⟩

/-- Claim C5 counterexample: the `update` that fires the last trigger
already raises `StopIteration` (the generator's `while triggers` loop
ends), and a further `update(["b"])` on the emptied forest raises
`StopIteration` again and does not merge "b" into the flag set —
it neither returns normally nor grows the flags. -/
theorem C5_counterexample :
    (plotSend genC5a ["a"]).2 = some PyErr.stopIteration ∧
    genC5b.forest = [] ∧
    (plotSend genC5b ["b"]).2 = some PyErr.stopIteration ∧
    (plotSend genC5b ["b"]).1.flags = ["a"] ∧
    (plotSend genC5b ["b"]).1.flags.contains "b" = false :=
  ⟨rfl, rfl, rfl, rfl, rfl⟩

/-- Claim C5 as amended: once the trigger forest is empty the `plot`
generator has terminated; every subsequent `update`/`send` raises
`StopIteration` and fires no callback, and when the generator has
already returned (`alive = false`) the whole plot state, flags
included, is left unchanged. -/
theorem C5_terminal_state (g : GenSt) (u : List String)
    (hempty : g.forest = []) :
    (plotSend g u).2 = some PyErr.stopIteration ∧
    (plotSend g u).1.fired = g.fired ∧
    (plotSend g u).1.forest = [] ∧
    (g.alive = false → plotSend g u = (g, some PyErr.stopIteration)) := by
  cases halive : g.alive with
  | false => simp [plotSend, halive, hempty]
  | true => simp [plotSend, halive, hempty, runPass]

theorem C5_witness :
    genC5b.forest = [] ∧
    (plotSend genC5b ["b"]).2 = some PyErr.stopIteration :=
  ⟨rfl, (C5_terminal_state genC5b ["b"] rfl).1⟩

/-- Claim C4: the evaluation-pass contract cannot be exhibited by the
code.  `Plot.start` raises `NameError` (unbound `state`/`triggers`,
plot.py line 72), so no `Plot.update` ever reaches the generator; and
driving the generator `plot` directly, an eligible *bare-callable*
trigger (a form its docstring allows) fires and is removed but then
`triggers.update(None)` raises `TypeError` (line 27), aborting the pass:
here `update(["a"])` on the single eligible snapshot entry ends in
`TypeError` instead of completing the pass normally. -/
theorem C4_update_pass_broken :
    PlotClass.start = some (PyErr.nameError "state") ∧
    (plotSend genC4 ["a"]).2 = some PyErr.typeError ∧
    (plotSend genC4 ["a"]).1.fired = [0] ∧
    (plotSend genC4 ["a"]).1.forest = [] ∧
    (plotSend genC4 ["a"]).1.alive = false ∧
    flagsSubset ["a"] (plotSend genC4 ["a"]).1.flags = true :=
  ⟨rfl, rfl, rfl, rfl, rfl, rfl⟩

/-- Claim C3: evaluating `add_entity` at the failing input.  Adding
entity 2 at z = 0 below the occupied slots inserts an empty slot and
shifts the rock (ref 1) from stack index 1 to index 2, but the shift loop
(world.py lines 216-218) only re-assigns each slot its current occupant:
the rock's recorded `tile_z` stays 1 and nothing is re-registered with
the render collaborator; only the newly placed entity is updated (and
that update itself ends in `NameError`, see `Entity.update`). -/
theorem C3_shift_not_reregistered :
    (Room.add_entity heapC3 roomC3 2 0 0 (some 0)).1.2.grid
      = [[[some 0, some 2, some 1]]] ∧
    (heapGet (Room.add_entity heapC3 roomC3 2 0 0 (some 0)).1.1 1).tile_z = 1 ∧
    ¬ (heapGet (Room.add_entity heapC3 roomC3 2 0 0 (some 0)).1.1 1).tile_z = 2 ∧
    (heapGet (Room.add_entity heapC3 roomC3 2 0 0 (some 0)).1.1 2).tile_z = 1 ∧
    (Room.add_entity heapC3 roomC3 2 0 0 (some 0)).2
      = some (PyErr.nameError "origin_x") :=
  ⟨rfl, rfl, by decide, rfl, rfl⟩

/-- Claim C2: `World.step_player` cannot delegate to the focused Room's
`step_entity` — it evaluates `self.step_entity` (world.py line 355), an
attribute neither `World` nor its spec-modelled `GameMode` base defines,
raising `AttributeError` on every call; likewise the portal protocol
never executes: `World.portal_player` reads the undefined
`self.portal_entity` (line 367), and `Room.portal_entity` itself reads
the undefined `self.focus` (line 279).  No call ever transfers the
player or switches focus. -/
theorem C2_step_player_undefined_attrs :
    ("step_entity" ∉ worldAttrs ∧ "portal_entity" ∉ worldAttrs ∧
     "focus" ∉ roomAttrs) ∧
    (∀ (w : WorldSt) (dx dy : Int),
      World.step_player w dx dy = (w, some (PyErr.attributeError "step_entity"))) ∧
    (∀ (w : WorldSt) (x y : Int),
      World.portal_player w x y = (w, some (PyErr.attributeError "portal_entity"))) ∧
    (∀ (h : Heap) (r : Room) (er : ERef) (x y : Int),
      Room.portal_entity h r er x y
        = ((h, r), Except.error (PyErr.attributeError "focus"))) :=
  ⟨by decide, fun _ _ _ => rfl, fun _ _ _ => rfl, fun _ _ _ _ _ => rfl⟩

theorem dictGet_dictSet_eq (d : List (PKey × PKey)) (k v : PKey) :
    dictGet (dictSet d k v) k = some v := by
  induction d with
  | nil => simp [dictSet, dictGet]
  | cons kv d ih =>
    by_cases hkv : kv.1 = k
    · simp [dictSet, dictGet, hkv]
    · simp [dictSet, dictGet, hkv, ih]

theorem dictGet_dictSet_ne (d : List (PKey × PKey)) (k v k' : PKey)
    (hne : k' ≠ k) :
    dictGet (dictSet d k v) k' = dictGet d k' := by
  have hne' : ¬(k = k') := fun h => hne h.symm
  induction d with
  | nil => simp [dictSet, dictGet, hne']
  | cons kv d ih =>
    by_cases hkv : kv.1 = k
    · have hkv' : ¬(kv.1 = k') := by
        rw [hkv]
        exact hne'
      simp [dictSet, dictGet, hkv, hkv', hne']
    · by_cases hp : kv.1 = k'
      · simp [dictSet, dictGet, hkv, hp, hne]
      · simp [dictSet, dictGet, hkv, hp, ih]

theorem dictGet_foldl_not_mem (f g : PKey × PKey → PKey) (k : PKey) :
    ∀ (l : List (PKey × PKey)) (d : List (PKey × PKey)),
      (∀ kv ∈ l, f kv ≠ k) →
      dictGet (l.foldl (fun acc kv => dictSet acc (f kv) (g kv)) d) k
        = dictGet d k := by
  intro l
  induction l with
  | nil => intro d _; rfl
  | cons hd tl ih =>
    intro d hno
    rw [List.foldl_cons, ih _ (fun kv hkv => hno kv (List.mem_cons_of_mem _ hkv)),
      dictGet_dictSet_ne _ _ _ _ (fun h => hno hd (List.mem_cons_self _ _) h.symm)]

theorem dictGet_foldl_unique (f g : PKey × PKey → PKey) (kv₀ : PKey × PKey) :
    ∀ (l : List (PKey × PKey)) (d : List (PKey × PKey)),
      kv₀ ∈ l → (∀ kv ∈ l, f kv = f kv₀ → kv = kv₀) →
      dictGet (l.foldl (fun acc kv => dictSet acc (f kv) (g kv)) d) (f kv₀)
        = some (g kv₀) := by
  intro l
  induction l with
  | nil => intro d hmem; exact absurd hmem (List.not_mem_nil kv₀)
  | cons hd tl ih =>
    intro d hmem huniq
    rw [List.foldl_cons]
    by_cases htl : kv₀ ∈ tl
    · exact ih _ htl (fun kv hkv => huniq kv (List.mem_cons_of_mem _ hkv))
    · have hhd : kv₀ = hd := by
        rcases List.mem_cons.mp hmem with h | h
        · exact h
        · exact absurd h htl
      subst hhd
      have hno : ∀ kv ∈ tl, f kv ≠ f kv₀ := by
        intro kv hkv heq
        exact htl (huniq kv (List.mem_cons_of_mem _ hkv) heq ▸ hkv)
      rw [dictGet_foldl_not_mem f g (f kv₀) tl _ hno, dictGet_dictSet_eq]

/-- Claim C8 counterexample: `add_portals` with two pairs sharing one
coordinate value — `{"A": (0,0), "B": (0,0)}` — leaves `(0,0)` mapped
back to "B" only; the pair `("A", (0,0))` is in the mapping but `(0,0)`
does not map back to "A", so the installed mapping is not symmetric for
every pair. -/
theorem C8_counterexample :
    dictGet (roomC8.add_portals portalsC8).portals (PKey.room "A")
      = some (PKey.coord 0 0) ∧
    dictGet (roomC8.add_portals portalsC8).portals (PKey.coord 0 0)
      = some (PKey.room "B") ∧
    ¬ dictGet (roomC8.add_portals portalsC8).portals (PKey.coord 0 0)
      = some (PKey.room "A") := by decide

/-- Claim C8 as amended: for a collision-free mapping — keys pairwise
distinct, values pairwise distinct, and no pair's value equal to a
different pair's key — `add_portals` installs, for every pair (k, v),
both `k -> v` and the reverse `v -> k` in the room's portal index. -/
theorem C8_portals_bidirectional (r : Room) (ps : List (PKey × PKey))
    (hkeys : (ps.map Prod.fst).Nodup) (hvals : (ps.map Prod.snd).Nodup)
    (hcross : ∀ a ∈ ps, ∀ b ∈ ps, a.2 = b.1 → a = b) :
    ∀ kv ∈ ps, dictGet (r.add_portals ps).portals kv.1 = some kv.2 ∧
               dictGet (r.add_portals ps).portals kv.2 = some kv.1 := by
  intro kv hmem
  have hports : (r.add_portals ps).portals
      = ps.foldl (fun acc kv => dictSet acc kv.2 kv.1)
          (ps.foldl (fun acc kv => dictSet acc kv.1 kv.2) r.portals) := rfl
  rw [hports]
  have hrev : dictGet (ps.foldl (fun acc kv => dictSet acc kv.2 kv.1)
      (ps.foldl (fun acc kv => dictSet acc kv.1 kv.2) r.portals)) kv.2
        = some kv.1 := by
    have huniq : ∀ b ∈ ps, b.2 = kv.2 → b = kv := by
      intro b hb heq
      exact List.inj_on_of_nodup_map hvals hb hmem heq
    exact dictGet_foldl_unique Prod.snd Prod.fst kv ps _ hmem huniq
  refine ⟨?_, hrev⟩
  by_cases hvk : ∃ b ∈ ps, b.2 = kv.1
  · obtain ⟨b, hb, hbeq⟩ := hvk
    have hbkv : b = kv := hcross b hb kv hmem hbeq
    subst hbkv
    rw [← hbeq, hrev, hbeq]
  · push_neg at hvk
    rw [dictGet_foldl_not_mem Prod.snd Prod.fst kv.1 ps _ hvk]
    have huniq1 : ∀ b ∈ ps, b.1 = kv.1 → b = kv := by
      intro b hb heq
      exact List.inj_on_of_nodup_map hkeys hb hmem heq
    exact dictGet_foldl_unique Prod.fst Prod.snd kv ps _ hmem huniq1

theorem C8_witness :
    dictGet (roomC8.add_portals [(PKey.room "A", PKey.coord 1 1)]).portals
      (PKey.room "A") = some (PKey.coord 1 1) ∧
    dictGet (roomC8.add_portals [(PKey.room "A", PKey.coord 1 1)]).portals
      (PKey.coord 1 1) = some (PKey.room "A") :=
  C8_portals_bidirectional roomC8 [(PKey.room "A", PKey.coord 1 1)]
    (by decide) (by decide) (by decide)
    (PKey.room "A", PKey.coord 1 1) (by decide)

theorem lookup_store_eq (k : String) (r : Room) :
    ∀ rs : List (String × Room),
      lookupRoom (storeRoom rs k r) k = (lookupRoom rs k).map (fun _ => r) := by
  intro rs
  induction rs with
  | nil => rfl
  | cons kv rs ih =>
    by_cases hkv : kv.1 = k
    · simp [storeRoom, lookupRoom, hkv]
    · simp [storeRoom, lookupRoom, hkv, ih]

theorem lookup_store_ne (k k' : String) (r : Room) (hne : k' ≠ k) :
    ∀ rs : List (String × Room),
      lookupRoom (storeRoom rs k r) k' = lookupRoom rs k' := by
  intro rs
  induction rs with
  | nil => rfl
  | cons kv rs ih =>
    have hkk' : ¬(k = k') := fun h => hne h.symm
    by_cases hkv : kv.1 = k
    · have hkv' : ¬(kv.1 = k') := by
        rw [hkv]
        exact hkk'
      simp [storeRoom, lookupRoom, hkv, hkv', hkk']
    · by_cases hp : kv.1 = k'
      · simp [storeRoom, lookupRoom, hkv, hp, hne]
      · simp [storeRoom, lookupRoom, hkv, hp, ih]

theorem store_store (k : String) (r r' : Room) :
    ∀ rs : List (String × Room),
      storeRoom (storeRoom rs k r) k r' = storeRoom rs k r' := by
  intro rs
  induction rs with
  | nil => rfl
  | cons kv rs ih =>
    by_cases hkv : kv.1 = k
    · simp [storeRoom, hkv]
    · simp [storeRoom, hkv, ih]

/-- Claim C9 counterexample: focusing an id absent from the registry is
not a no-op and does fault — `set_focus worldC9 "B"` raises `KeyError`
(from `__getitem__`, world.py line 322) after detaching the focused
room's batch; only the focus pointer survives unchanged. -/
theorem C9_counterexample :
    (World.set_focus worldC9 "B").2 = some PyErr.keyError ∧
    (World.set_focus worldC9 "B").1.focus = some "A" ∧
    (World.set_focus worldC9 "B").1.getRoom "A"
      = some { roomC9 with batch := none } :=
  ⟨rfl, rfl, rfl⟩

/-- Claim C9 as amended: with a registered, entity-free focused room,
`set_focus` with an empty id leaves the focus pointer unchanged, raises
no fault, and only re-attaches the focused room's batch; `set_focus`
with an id absent from the registry raises `KeyError` (failing loudly,
per the error-handling design) after detaching the focused room's
batch, leaving the focus pointer unchanged. -/
theorem C9_set_focus_behaviour (w : WorldSt) (f : String) (fr : Room)
    (hf : w.focus = some f) (hr : w.getRoom f = some fr)
    (he : fr.firstEntity = none) :
    ((World.set_focus w "").1.focus = w.focus ∧
     (World.set_focus w "").2 = none ∧
     (World.set_focus w "").1.rooms
       = storeRoom w.rooms f { fr with batch := some w.batch } ∧
     (World.set_focus w "").1.heap = w.heap) ∧
    ∀ q, q ≠ "" → w.getRoom q = none →
      World.set_focus w q
        = (w.setRoom f { fr with batch := none }, some PyErr.keyError) := by
  have hr' : lookupRoom w.rooms f = some fr := hr
  have he1 : Room.firstEntity { fr with batch := none } = none := he
  have he2 : Room.firstEntity { fr with batch := some w.batch } = none := he
  have hrg' : lookupRoom (storeRoom w.rooms f { fr with batch := none }) f
      = some { fr with batch := none } := by
    rw [lookup_store_eq, hr']
    rfl
  constructor
  · simp only [World.set_focus, WorldSt.getRoom, WorldSt.setRoom, hf, hr',
      Room.update, he1, he2, hrg']
    simp [Room.update, he1, he2, store_store, hf, hrg']
  · intro q hq hqnone
    have hqf : q ≠ f := by
      intro heq
      rw [heq, hr] at hqnone
      exact Option.noConfusion hqnone
    have hq2' : lookupRoom (storeRoom w.rooms f { fr with batch := none }) q
        = none := by
      rw [lookup_store_ne _ _ _ hqf]
      exact hqnone
    simp only [World.set_focus, WorldSt.getRoom, WorldSt.setRoom, hf, hr',
      Room.update, he1, hq2']
    simp [hq, hq2', Room.update, he1, hf, WorldSt.setRoom, hrg']

theorem C9_witness :
    worldC9.focus = some "A" ∧
    (World.set_focus worldC9 "").2 = none ∧
    (World.set_focus worldC9 "").1.focus = worldC9.focus :=
  ⟨rfl, (C9_set_focus_behaviour worldC9 "A" roomC9 rfl rfl rfl).1.2.1,
   (C9_set_focus_behaviour worldC9 "A" roomC9 rfl rfl rfl).1.1⟩
